import Mathlib

/-!
Verification development for the Polymarket MCP server
(`src/polymarket_mcp_server/server.py`), a read-only market-data adapter
over the Polymarket Gamma REST API.

The Python source is shallowly embedded:
  * JSON values are the inductive `JsonVal` (numeric literals appear only as
    opaque pass-through values, modelled as integers; no float arithmetic
    occurs anywhere in the embedded code),
  * the query-parameter dict built by each tool operation is an insertion-
    ordered association list `QueryParams` with Python dict assignment and
    `setdefault(k, []).append(x)` semantics (`dictSet`, `dictAppend`),
  * the HTTP transport is an abstract `Upstream` function from requests to
    either a network-level failure (`Except.error`) or an `HttpResponse`;
    `make_api_request` mirrors the executor including `raise_for_status`,
    and each operation returns the list of requests actually issued
    together with its Python return value,
  * Python exceptions are `Except` values; a `try/except` block is the
    corresponding `match`.  Writes to `sys.stderr` are ignored.
-/

/-- A JSON value, as returned by the upstream API and by the tools.
Upstream bodies are opaque pass-through values for this server. -/
inductive JsonVal where
  | jNull : JsonVal
  | jBool : Bool → JsonVal
  | jInt : Int → JsonVal
  | jStr : String → JsonVal
  | jArr : List JsonVal → JsonVal
  | jObj : List (String × JsonVal) → JsonVal
deriving Repr

/-- A value stored in the outgoing query-parameter dict: Python scalars
(int, str, bool, float) or a list of scalars.  Float-valued filter
parameters (liquidity/volume bounds) are opaque pass-through numbers,
modelled as rationals (`qNum`); the code never computes with them. -/
inductive QVal where
  | qInt : Int → QVal
  | qStr : String → QVal
  | qBool : Bool → QVal
  | qNum : Rat → QVal
  | qList : List QVal → QVal
deriving Repr

/-- The query-parameter dict, insertion ordered, as Python `dict` is. -/
abbrev QueryParams := List (String × QVal)

/-- Python dict assignment params[k] = v: overwrite in place if the key is present
(insertion order keeps the original position), else append. -/
def dictSet : QueryParams → String → QVal → QueryParams
  | [], k, v => [(k, v)]
  | (k', v') :: rest, k, v =>
    if k' = k then (k, v) :: rest else (k', v') :: dictSet rest k v

/-- Python dict lookup (first — and only — binding of the key). -/
def dictLookup : QueryParams → String → Option QVal
  | [], _ => none
  | (k', v) :: rest, k => if k' = k then some v else dictLookup rest k

/-- Python params.setdefault(k, []).append(x): if `k` is bound to a
list, extend it in place; if unbound, bind it to `[x]`.  (If `k` were
bound to a non-list Python would raise `AttributeError`; no call site in
the source can reach that case, and it is modelled as a no-op.) -/
def dictAppend (p : QueryParams) (k : String) (x : QVal) : QueryParams :=
  match dictLookup p k with
  | some (QVal.qList xs) => dictSet p k (QVal.qList (xs ++ [x]))
  | some _ => p
  | none => dictSet p k (QVal.qList [x])

/-- How httpx serializes one dict value: a list becomes repeated query
entries (one per element), a scalar becomes a single entry. -/
def encodeVal : QVal → List QVal
  | QVal.qList xs => xs
  | v => [v]

/-- The wire-level query entry sequence httpx builds from the params
dict: each binding expands via `encodeVal`, keeping dict order. -/
def encodeParams (p : QueryParams) : List (String × QVal) :=
  p.flatMap (fun e => (encodeVal e.2).map (fun x => (e.1, x)))

/-- The values of the outgoing query entries carrying key `k`, in wire
order.  `queryEntries p k = []` means the query has no entry for `k`. -/
def queryEntries : QueryParams → String → List QVal
  | [], _ => []
  | (k', v) :: rest, k =>
    if k' = k then encodeVal v ++ queryEntries rest k else queryEntries rest k

/-- The list `queryEntries p k` is exactly the sub-sequence of the httpx wire encoding
carrying key `k`. -/
theorem queryEntries_eq_encodeParams (p : QueryParams) (k : String) :
    queryEntries p k
      = ((encodeParams p).filter (fun e => e.1 = k)).map Prod.snd := by
  induction p with
  | nil => rfl
  | cons e rest ih =>
    obtain ⟨k', v⟩ := e
    by_cases h : k' = k
    · subst h
      simp [queryEntries, encodeParams, List.filter_append, ih,
        List.filter_map, Function.comp_def]
    · simp [queryEntries, encodeParams, h, List.filter_append, ih,
        List.filter_map, Function.comp_def]

/-- One HTTP request as issued by the executor: the endpoint path (joined
onto the configured base URL), the method, the query params, and the JSON
body for POST. -/
structure Request where
  endpoint : String
  method : String
  params : QueryParams
  body : Option JsonVal

/-- An upstream HTTP response: status code and JSON body. -/
structure HttpResponse where
  status : Nat
  body : JsonVal

/-- The exceptions the embedded code can raise.
`valueError` is Python `ValueError` — the spec's taxonomy classifies the
unsupported-method case as `ConfigurationError`; `httpStatusError` is
`httpx.HTTPStatusError` from `response.raise_for_status()`;
`networkError` covers httpx transport-level failures. -/
inductive ApiError where
  | valueError : String → ApiError
  | httpStatusError : Nat → JsonVal → ApiError
  | networkError : String → ApiError

/-- Python str(e) on a caught exception.  For `valueError` and
`networkError` this is the carried message; the exact text httpx composes
for `HTTPStatusError` is not modelled, only that it is some string. -/
def ApiError.message : ApiError → String
  | ApiError.valueError m => m
  | ApiError.httpStatusError status _ => "HTTP status " ++ toString status
  | ApiError.networkError m => m

/-- The abstract transport: maps a request to either a network-level
failure (`Except.error msg`) or an HTTP response.  Quantifying theorems
over `Upstream` quantifies over every upstream behaviour. -/
def Upstream : Type := Request → Except String HttpResponse

/-- httpx `response.raise_for_status()` raises unless the status is 2xx. -/
def isSuccessStatus (status : Nat) : Bool := 200 ≤ status && status ≤ 299

/-- The request executor `make_api_request` (server.py lines 31-50): issues one GET or POST
against the upstream and returns the response JSON; any non-2xx response
raises `httpStatusError`; any other method raises
`ValueError(f"Unsupported HTTP method: {method}")` before any request is
issued.  The first component is the list of requests that actually
reached the transport (empty for the unsupported-method case).
`params=None` at a Python call site is the empty dict here. -/
def make_api_request (u : Upstream) (endpoint : String) (params : QueryParams)
    (method : String) (data : Option JsonVal) :
    List Request × Except ApiError JsonVal :=
  if method = "GET" then
    let req : Request :=
      { endpoint := endpoint, method := "GET", params := params, body := none }
    match u req with
    | Except.error msg => ([req], Except.error (ApiError.networkError msg))
    | Except.ok resp =>
      if isSuccessStatus resp.status then ([req], Except.ok resp.body)
      else ([req], Except.error (ApiError.httpStatusError resp.status resp.body))
  else if method = "POST" then
    let req : Request :=
      { endpoint := endpoint, method := "POST", params := params, body := data }
    match u req with
    | Except.error msg => ([req], Except.error (ApiError.networkError msg))
    | Except.ok resp =>
      if isSuccessStatus resp.status then ([req], Except.ok resp.body)
      else ([req], Except.error (ApiError.httpStatusError resp.status resp.body))
  else
    ([], Except.error (ApiError.valueError ("Unsupported HTTP method: " ++ method)))

/-- The `id: Optional[Union[int, List[int]]]` argument shape. -/
inductive IntListArg where
  | single : Int → IntListArg
  | list : List Int → IntListArg

/-- The `Optional[Union[str, List[str]]]` argument shape. -/
inductive StrListArg where
  | single : String → StrListArg
  | list : List String → StrListArg

/-- Python pattern: if v is not None, then params[k] = v, for a scalar optional argument. -/
def addIfSome (p : QueryParams) (k : String) : Option QVal → QueryParams
  | some v => dictSet p k v
  | none => p

/-- Python pattern: if v, then params[k] = v, for an optional string argument (Python
truthiness: present and non-empty). -/
def addIfTruthy (p : QueryParams) (k : String) : Option String → QueryParams
  | some s => if s = "" then p else dictSet p k (QVal.qStr s)
  | none => p

/-- The int-or-list branch of the filter builder (server.py 125-131):
a list appends each element via `setdefault(k, []).append`, a scalar is
assigned directly, `None` adds nothing. -/
def addIntListArg (p : QueryParams) (k : String) : Option IntListArg → QueryParams
  | some (IntListArg.single n) => dictSet p k (QVal.qInt n)
  | some (IntListArg.list ns) =>
      ns.foldl (fun q n => dictAppend q k (QVal.qInt n)) p
  | none => p

/-- The str-or-list branch of the filter builder (server.py 132-138). -/
def addStrListArg (p : QueryParams) (k : String) : Option StrListArg → QueryParams
  | some (StrListArg.single s) => dictSet p k (QVal.qStr s)
  | some (StrListArg.list ss) =>
      ss.foldl (fun q s => dictAppend q k (QVal.qStr s)) p
  | none => p

/-- The keyword arguments of the get_markets tool (server.py 53-75), all
optional with Python default None. -/
structure GetMarketsArgs where
  limit : Option Int := none
  offset : Option Int := none
  order : Option String := none
  ascending : Option Bool := none
  id : Option IntListArg := none
  slug : Option StrListArg := none
  archived : Option Bool := none
  active : Option Bool := none
  closed : Option Bool := none
  clob_token_ids : Option StrListArg := none
  condition_ids : Option StrListArg := none
  liquidity_num_min : Option Rat := none
  liquidity_num_max : Option Rat := none
  volume_num_min : Option Rat := none
  volume_num_max : Option Rat := none
  start_date_min : Option String := none
  start_date_max : Option String := none
  end_date_min : Option String := none
  end_date_max : Option String := none
  tag_id : Option Int := none
  related_tags : Option Bool := none
  status : Option String := none

/-- Python str.lower(), modelled character-wise (ASCII case mapping; the
source only compares the result against the ASCII literals "open",
"closed" and "archived"). -/
def pyLower (s : String) : String := String.mk (s.data.map Char.toLower)

/-- The legacy-status block of get_markets (server.py 107-114): a truthy
status whose lowercasing is "open"/"closed"/"archived" overwrites the
local variable active/closed/archived with True; any other value changes
nothing.  Returns (active, closed, archived) after the block. -/
def applyStatus (status : Option String) (active closed archived : Option Bool) :
    Option Bool × Option Bool × Option Bool :=
  match status with
  | none => (active, closed, archived)
  | some s =>
    if s = "" then (active, closed, archived)
    else if pyLower s = "open" then (some true, closed, archived)
    else if pyLower s = "closed" then (active, some true, archived)
    else if pyLower s = "archived" then (active, closed, some true)
    else (active, closed, archived)

/-- The block at server.py 175-178: related_tags is added only when both
related_tags and tag_id are not None. -/
def addRelatedTags (p : QueryParams) (relTags : Option Bool) (tagId : Option Int) :
    QueryParams :=
  match relTags, tagId with
  | some b, some _ => dictSet p "related_tags" (QVal.qBool b)
  | _, _ => p

/-- The query-parameter dict built by get_markets (server.py 104-178),
one helper application per source `if` in source order. -/
def getMarketsParams (a : GetMarketsArgs) : QueryParams :=
  let flags := applyStatus a.status a.active a.closed a.archived
  let active := flags.1
  let closed := flags.2.1
  let archived := flags.2.2
  let p : QueryParams := []
  let p := addIfSome p "limit" (Option.map QVal.qInt a.limit)
  let p := addIfSome p "offset" (Option.map QVal.qInt a.offset)
  let p := addIfTruthy p "order" a.order
  let p := addIfSome p "ascending" (Option.map QVal.qBool a.ascending)
  let p := addIntListArg p "id" a.id
  let p := addStrListArg p "slug" a.slug
  let p := addIfSome p "archived" (Option.map QVal.qBool archived)
  let p := addIfSome p "active" (Option.map QVal.qBool active)
  let p := addIfSome p "closed" (Option.map QVal.qBool closed)
  let p := addStrListArg p "clob_token_ids" a.clob_token_ids
  let p := addStrListArg p "condition_ids" a.condition_ids
  let p := addIfSome p "liquidity_num_min" (Option.map QVal.qNum a.liquidity_num_min)
  let p := addIfSome p "liquidity_num_max" (Option.map QVal.qNum a.liquidity_num_max)
  let p := addIfSome p "volume_num_min" (Option.map QVal.qNum a.volume_num_min)
  let p := addIfSome p "volume_num_max" (Option.map QVal.qNum a.volume_num_max)
  let p := addIfTruthy p "start_date_min" a.start_date_min
  let p := addIfTruthy p "start_date_max" a.start_date_max
  let p := addIfTruthy p "end_date_min" a.end_date_min
  let p := addIfTruthy p "end_date_max" a.end_date_max
  let p := addIfSome p "tag_id" (Option.map QVal.qInt a.tag_id)
  let p := addRelatedTags p a.related_tags a.tag_id
  p

/-- The get_markets tool (server.py 52-184): builds the filter params,
issues one GET to "markets", and returns the upstream JSON unmodified;
any exception is caught and converted to the default envelope
with an empty markets list (the stderr log line is ignored). -/
def get_markets (u : Upstream) (a : GetMarketsArgs) : List Request × JsonVal :=
  let r := make_api_request u "markets" (getMarketsParams a) "GET" none
  match r.2 with
  | Except.ok response => (r.1, response)
  | Except.error _ => (r.1, JsonVal.jObj [("markets", JsonVal.jArr [])])

/-- The get_market_by_id tool (server.py 186-198): one GET to
markets/{market_id} with no params; on any exception returns
a dict carrying the error text under the "error" key. -/
def get_market_by_id (u : Upstream) (market_id : String) : List Request × JsonVal :=
  let r := make_api_request u ("markets/" ++ market_id) [] "GET" none
  match r.2 with
  | Except.ok response => (r.1, response)
  | Except.error e => (r.1, JsonVal.jObj [("error", JsonVal.jStr e.message)])

/-- The get_recent_trades tool (server.py 222-239): one GET to
markets/{market_id}/trades with params limit=limit (Python default 50,
supplied by the caller here); on any exception returns the default
envelope with an empty trades list. -/
def get_recent_trades (u : Upstream) (market_id : String) (limit : Int) :
    List Request × JsonVal :=
  let r := make_api_request u ("markets/" ++ market_id ++ "/trades")
    [("limit", QVal.qInt limit)] "GET" none
  match r.2 with
  | Except.ok response => (r.1, response)
  | Except.error _ => (r.1, JsonVal.jObj [("trades", JsonVal.jArr [])])

/-- The get_market_history tool (server.py 241-258): one GET to
markets/{market_id}/history with params resolution=resolution (Python
default "hour", supplied by the caller here); on any exception returns
the default envelope with an empty history list. -/
def get_market_history (u : Upstream) (market_id : String) (resolution : String) :
    List Request × JsonVal :=
  let r := make_api_request u ("markets/" ++ market_id ++ "/history")
    [("resolution", QVal.qStr resolution)] "GET" none
  match r.2 with
  | Except.ok response => (r.1, response)
  | Except.error _ => (r.1, JsonVal.jObj [("history", JsonVal.jArr [])])

/-- The search_markets tool (server.py 260-278): one GET to "markets"
with params slug=query, limit=limit (Python default 20, supplied by the
caller here); on any exception returns the default envelope with an
empty markets list. -/
def search_markets (u : Upstream) (query : String) (limit : Int) :
    List Request × JsonVal :=
  let r := make_api_request u "markets"
    [("slug", QVal.qStr query), ("limit", QVal.qInt limit)] "GET" none
  match r.2 with
  | Except.ok response => (r.1, response)
  | Except.error _ => (r.1, JsonVal.jObj [("markets", JsonVal.jArr [])])

/-- The keyword arguments of the get_events tool (server.py 318-339),
all optional with Python default None. -/
structure GetEventsArgs where
  limit : Option Int := none
  offset : Option Int := none
  order : Option String := none
  ascending : Option Bool := none
  id : Option IntListArg := none
  slug : Option StrListArg := none
  archived : Option Bool := none
  active : Option Bool := none
  closed : Option Bool := none
  liquidity_min : Option Rat := none
  liquidity_max : Option Rat := none
  volume_min : Option Rat := none
  volume_max : Option Rat := none
  start_date_min : Option String := none
  start_date_max : Option String := none
  end_date_min : Option String := none
  end_date_max : Option String := none
  tag : Option String := none
  tag_id : Option Int := none
  related_tags : Option Bool := none
  tag_slug : Option String := none

/-- The elif arms of the tag-priority block once tag was falsy
(server.py 422-427): tag_id is not None wins, adding related_tags when
it is not None; otherwise a truthy tag_slug is added; otherwise nothing. -/
def addTagFiltersNoTag (p : QueryParams) (tagId : Option Int)
    (relTags : Option Bool) (tagSlug : Option String) : QueryParams :=
  match tagId with
  | some n =>
    let q := dictSet p "tag_id" (QVal.qInt n)
    match relTags with
    | some b => dictSet q "related_tags" (QVal.qBool b)
    | none => q
  | none =>
    match tagSlug with
    | some s => if s = "" then p else dictSet p "tag_slug" (QVal.qStr s)
    | none => p

/-- The tag-priority block of get_events (server.py 419-427):
if tag is truthy it is added and everything else in the group is
dropped; otherwise the elif arms run. -/
def addTagFilters (p : QueryParams) (tag : Option String) (tagId : Option Int)
    (relTags : Option Bool) (tagSlug : Option String) : QueryParams :=
  match tag with
  | some t =>
    if t = "" then addTagFiltersNoTag p tagId relTags tagSlug
    else dictSet p "tag" (QVal.qStr t)
  | none => addTagFiltersNoTag p tagId relTags tagSlug

/-- The query-parameter dict built by get_events (server.py 370-427),
one helper application per source `if` in source order. -/
def getEventsParams (a : GetEventsArgs) : QueryParams :=
  let p : QueryParams := []
  let p := addIfSome p "limit" (Option.map QVal.qInt a.limit)
  let p := addIfSome p "offset" (Option.map QVal.qInt a.offset)
  let p := addIfTruthy p "order" a.order
  let p := addIfSome p "ascending" (Option.map QVal.qBool a.ascending)
  let p := addIntListArg p "id" a.id
  let p := addStrListArg p "slug" a.slug
  let p := addIfSome p "archived" (Option.map QVal.qBool a.archived)
  let p := addIfSome p "active" (Option.map QVal.qBool a.active)
  let p := addIfSome p "closed" (Option.map QVal.qBool a.closed)
  let p := addIfSome p "liquidity_min" (Option.map QVal.qNum a.liquidity_min)
  let p := addIfSome p "liquidity_max" (Option.map QVal.qNum a.liquidity_max)
  let p := addIfSome p "volume_min" (Option.map QVal.qNum a.volume_min)
  let p := addIfSome p "volume_max" (Option.map QVal.qNum a.volume_max)
  let p := addIfTruthy p "start_date_min" a.start_date_min
  let p := addIfTruthy p "start_date_max" a.start_date_max
  let p := addIfTruthy p "end_date_min" a.end_date_min
  let p := addIfTruthy p "end_date_max" a.end_date_max
  let p := addTagFilters p a.tag a.tag_id a.related_tags a.tag_slug
  p

/-- The get_events tool (server.py 317-432): builds the filter params,
issues one GET to "events", and returns the upstream JSON unmodified;
any exception is caught and converted to the default envelope with an
empty events list. -/
def get_events (u : Upstream) (a : GetEventsArgs) : List Request × JsonVal :=
  let r := make_api_request u "events" (getEventsParams a) "GET" none
  match r.2 with
  | Except.ok response => (r.1, response)
  | Except.error _ => (r.1, JsonVal.jObj [("events", JsonVal.jArr [])])

/-- The get_event_by_id tool (server.py 434-446): one GET to
events/{event_id}; on any exception returns a dict carrying the
error text under the "error" key. -/
def get_event_by_id (u : Upstream) (event_id : String) : List Request × JsonVal :=
  let r := make_api_request u ("events/" ++ event_id) [] "GET" none
  match r.2 with
  | Except.ok response => (r.1, response)
  | Except.error e => (r.1, JsonVal.jObj [("error", JsonVal.jStr e.message)])

/-- An indentation prefix of n spaces. -/
def spaces (n : Nat) : String := String.mk (List.replicate n ' ')

/-- Minimal JSON string escaping (quote and backslash), standing in for
the escaping json.dumps performs; no claim inspects escaped text. -/
def escapeJson (s : String) : String :=
  String.join (s.toList.map (fun c =>
    if c = '"' then "\\\"" else if c = '\\' then "\\\\" else String.mk [c]))

mutual

/-- Python json.dumps(v, indent=2), at the given current indent level:
scalars inline; empty containers collapse; non-empty containers put each
element on its own line indented two deeper. -/
def jsonDumpsVal : Nat → JsonVal → String
  | _, JsonVal.jNull => "null"
  | _, JsonVal.jBool b => if b then "true" else "false"
  | _, JsonVal.jInt n => toString n
  | _, JsonVal.jStr s => "\"" ++ escapeJson s ++ "\""
  | _, JsonVal.jArr [] => "[]"
  | lvl, JsonVal.jArr (x :: xs) =>
    "[\n" ++ jsonDumpsArr (lvl + 2) (x :: xs) ++ "\n" ++ spaces lvl ++ "]"
  | _, JsonVal.jObj [] => "\x7b\x7d"
  | lvl, JsonVal.jObj (f :: fs) =>
    "\x7b\n" ++ jsonDumpsObj (lvl + 2) (f :: fs) ++ "\n" ++ spaces lvl ++ "\x7d"

/-- Array elements of json.dumps(·, indent=2), comma-newline separated. -/
def jsonDumpsArr : Nat → List JsonVal → String
  | _, [] => ""
  | lvl, [x] => spaces lvl ++ jsonDumpsVal lvl x
  | lvl, x :: y :: xs =>
    spaces lvl ++ jsonDumpsVal lvl x ++ ",\n" ++ jsonDumpsArr lvl (y :: xs)

/-- Object members of json.dumps(·, indent=2), comma-newline separated. -/
def jsonDumpsObj : Nat → List (String × JsonVal) → String
  | _, [] => ""
  | lvl, [(k, v)] =>
    spaces lvl ++ "\"" ++ escapeJson k ++ "\": " ++ jsonDumpsVal lvl v
  | lvl, (k, v) :: f :: fs =>
    spaces lvl ++ "\"" ++ escapeJson k ++ "\": " ++ jsonDumpsVal lvl v
      ++ ",\n" ++ jsonDumpsObj lvl (f :: fs)

end

/-- Python json.dumps(v, indent=2). -/
def jsonDumps (v : JsonVal) : String := jsonDumpsVal 0 v

/-- The polymarket://markets resource (server.py 280-287): wraps exactly
the get_markets tool called with no arguments and serializes its result
as indented JSON text.  In this embedding get_markets and jsonDumps are
total, so the source's except branch (returning the string
"Error retrieving markets: ..." instead of raising) is unreachable. -/
def markets_resource (u : Upstream) : String :=
  jsonDumps (get_markets u {}).2

/-- The polymarket://markets/{market_id} resource (server.py 289-301):
wraps exactly get_market_by_id and serializes its result as indented
JSON text; the except branch ("Error retrieving market details: ...")
is unreachable since the wrapped operation is total. -/
def market_details_resource (u : Upstream) (market_id : String) : String :=
  jsonDumps (get_market_by_id u market_id).2

/-- The polymarket://search/{query} resource (server.py 303-315): wraps
exactly search_markets (limit left at its Python default 20) and
serializes its result as indented JSON text; the except branch
("Error searching markets: ...") is unreachable since the wrapped
operation is total. -/
def search_markets_resource (u : Upstream) (query : String) : String :=
  jsonDumps (search_markets u query 20).2

/-- The polymarket://events resource (server.py 448-455): wraps exactly
the get_events tool called with no arguments and serializes its result
as indented JSON text; the except branch ("Error retrieving events: ...")
is unreachable since the wrapped operation is total. -/
def events_resource (u : Upstream) : String :=
  jsonDumps (get_events u {}).2

/-- The polymarket://events/{event_id} resource (server.py 457-469):
wraps exactly get_event_by_id and serializes its result as indented JSON
text; the except branch ("Error retrieving event details: ...") is
unreachable since the wrapped operation is total. -/
def event_details_resource (u : Upstream) (event_id : String) : String :=
  jsonDumps (get_event_by_id u event_id).2

theorem dictLookup_dictSet_self (p : QueryParams) (k : String) (v : QVal) :
    dictLookup (dictSet p k v) k = some v := by
  induction p with
  | nil => simp [dictSet, dictLookup]
  | cons e rest ih =>
    obtain ⟨k', v'⟩ := e
    by_cases h : k' = k
    · simp [dictSet, dictLookup, h]
    · simp [dictSet, dictLookup, h, ih]

theorem dictLookup_dictSet_ne (p : QueryParams) (k k' : String) (v : QVal)
    (h : k' ≠ k) : dictLookup (dictSet p k' v) k = dictLookup p k := by
  induction p with
  | nil => simp [dictSet, dictLookup, h]
  | cons e rest ih =>
    obtain ⟨k₀, v₀⟩ := e
    by_cases h₀ : k₀ = k'
    · subst h₀
      simp [dictSet, dictLookup, h]
    · by_cases h₁ : k₀ = k <;> simp [dictSet, dictLookup, h₀, h₁, ih, Ne.symm h]

theorem queryEntries_dictSet_ne (p : QueryParams) (k k' : String) (v : QVal)
    (h : k' ≠ k) : queryEntries (dictSet p k' v) k = queryEntries p k := by
  induction p with
  | nil => simp [dictSet, queryEntries, h]
  | cons e rest ih =>
    obtain ⟨k₀, v₀⟩ := e
    by_cases h₀ : k₀ = k'
    · subst h₀
      simp [dictSet, queryEntries, h]
    · by_cases h₁ : k₀ = k <;> simp [dictSet, queryEntries, h₀, h₁, ih, Ne.symm h]

theorem dictLookup_dictAppend_ne (p : QueryParams) (k k' : String) (x : QVal)
    (h : k' ≠ k) : dictLookup (dictAppend p k' x) k = dictLookup p k := by
  unfold dictAppend
  cases dictLookup p k' with
  | none => exact dictLookup_dictSet_ne p k k' _ h
  | some w => cases w <;> simp [dictLookup_dictSet_ne p k k' _ h]

theorem queryEntries_dictAppend_ne (p : QueryParams) (k k' : String) (x : QVal)
    (h : k' ≠ k) : queryEntries (dictAppend p k' x) k = queryEntries p k := by
  unfold dictAppend
  cases dictLookup p k' with
  | none => exact queryEntries_dictSet_ne p k k' _ h
  | some w => cases w <;> simp [queryEntries_dictSet_ne p k k' _ h]

theorem dictLookup_addIfSome_ne (p : QueryParams) (k k' : String)
    (v : Option QVal) (h : k' ≠ k) :
    dictLookup (addIfSome p k' v) k = dictLookup p k := by
  cases v <;> simp [addIfSome, dictLookup_dictSet_ne p k k' _ h]

theorem queryEntries_addIfSome_ne (p : QueryParams) (k k' : String)
    (v : Option QVal) (h : k' ≠ k) :
    queryEntries (addIfSome p k' v) k = queryEntries p k := by
  cases v <;> simp [addIfSome, queryEntries_dictSet_ne p k k' _ h]

theorem dictLookup_addIfTruthy_ne (p : QueryParams) (k k' : String)
    (v : Option String) (h : k' ≠ k) :
    dictLookup (addIfTruthy p k' v) k = dictLookup p k := by
  cases v with
  | none => rfl
  | some s =>
    by_cases hs : s = "" <;> simp [addIfTruthy, hs, dictLookup_dictSet_ne p k k' _ h]

theorem queryEntries_addIfTruthy_ne (p : QueryParams) (k k' : String)
    (v : Option String) (h : k' ≠ k) :
    queryEntries (addIfTruthy p k' v) k = queryEntries p k := by
  cases v with
  | none => rfl
  | some s =>
    by_cases hs : s = "" <;> simp [addIfTruthy, hs, queryEntries_dictSet_ne p k k' _ h]

theorem dictLookup_foldl_dictAppend_ne {α : Type} (f : α → QVal) (xs : List α)
    (p : QueryParams) (k k' : String) (h : k' ≠ k) :
    dictLookup (xs.foldl (fun q x => dictAppend q k' (f x)) p) k = dictLookup p k := by
  induction xs generalizing p with
  | nil => rfl
  | cons x xs ih => simp [List.foldl_cons, ih, dictLookup_dictAppend_ne p k k' _ h]

theorem queryEntries_foldl_dictAppend_ne {α : Type} (f : α → QVal) (xs : List α)
    (p : QueryParams) (k k' : String) (h : k' ≠ k) :
    queryEntries (xs.foldl (fun q x => dictAppend q k' (f x)) p) k = queryEntries p k := by
  induction xs generalizing p with
  | nil => rfl
  | cons x xs ih => simp [List.foldl_cons, ih, queryEntries_dictAppend_ne p k k' _ h]

theorem dictLookup_addIntListArg_ne (p : QueryParams) (k k' : String)
    (v : Option IntListArg) (h : k' ≠ k) :
    dictLookup (addIntListArg p k' v) k = dictLookup p k := by
  match v with
  | none => rfl
  | some (IntListArg.single n) =>
    simp [addIntListArg, dictLookup_dictSet_ne p k k' _ h]
  | some (IntListArg.list ns) =>
    simp [addIntListArg, dictLookup_foldl_dictAppend_ne _ ns p k k' h]

theorem queryEntries_addIntListArg_ne (p : QueryParams) (k k' : String)
    (v : Option IntListArg) (h : k' ≠ k) :
    queryEntries (addIntListArg p k' v) k = queryEntries p k := by
  match v with
  | none => rfl
  | some (IntListArg.single n) =>
    simp [addIntListArg, queryEntries_dictSet_ne p k k' _ h]
  | some (IntListArg.list ns) =>
    simp [addIntListArg, queryEntries_foldl_dictAppend_ne _ ns p k k' h]

theorem dictLookup_addStrListArg_ne (p : QueryParams) (k k' : String)
    (v : Option StrListArg) (h : k' ≠ k) :
    dictLookup (addStrListArg p k' v) k = dictLookup p k := by
  match v with
  | none => rfl
  | some (StrListArg.single s) =>
    simp [addStrListArg, dictLookup_dictSet_ne p k k' _ h]
  | some (StrListArg.list ss) =>
    simp [addStrListArg, dictLookup_foldl_dictAppend_ne _ ss p k k' h]

theorem queryEntries_addStrListArg_ne (p : QueryParams) (k k' : String)
    (v : Option StrListArg) (h : k' ≠ k) :
    queryEntries (addStrListArg p k' v) k = queryEntries p k := by
  match v with
  | none => rfl
  | some (StrListArg.single s) =>
    simp [addStrListArg, queryEntries_dictSet_ne p k k' _ h]
  | some (StrListArg.list ss) =>
    simp [addStrListArg, queryEntries_foldl_dictAppend_ne _ ss p k k' h]

theorem dictLookup_addRelatedTags_ne (p : QueryParams) (k : String)
    (rt : Option Bool) (tid : Option Int) (h : k ≠ "related_tags") :
    dictLookup (addRelatedTags p rt tid) k = dictLookup p k := by
  match rt, tid with
  | some b, some n => simp [addRelatedTags, dictLookup_dictSet_ne p k _ _ h.symm]
  | some b, none => rfl
  | none, _ => rfl

theorem queryEntries_addRelatedTags_ne (p : QueryParams) (k : String)
    (rt : Option Bool) (tid : Option Int) (h : k ≠ "related_tags") :
    queryEntries (addRelatedTags p rt tid) k = queryEntries p k := by
  match rt, tid with
  | some b, some n => simp [addRelatedTags, queryEntries_dictSet_ne p k _ _ h.symm]
  | some b, none => rfl
  | none, _ => rfl

theorem dictLookup_addTagFilters_ne (p : QueryParams) (k : String)
    (tag : Option String) (tid : Option Int) (rt : Option Bool) (ts : Option String)
    (h₁ : k ≠ "tag") (h₂ : k ≠ "tag_id") (h₃ : k ≠ "related_tags")
    (h₄ : k ≠ "tag_slug") :
    dictLookup (addTagFilters p tag tid rt ts) k = dictLookup p k := by
  have base : dictLookup (addTagFiltersNoTag p tid rt ts) k = dictLookup p k := by
    match tid, rt, ts with
    | some n, some b, _ =>
      simp [addTagFiltersNoTag, dictLookup_dictSet_ne _ k _ _ h₃.symm,
        dictLookup_dictSet_ne _ k _ _ h₂.symm]
    | some n, none, _ =>
      simp [addTagFiltersNoTag, dictLookup_dictSet_ne _ k _ _ h₂.symm]
    | none, _, some s =>
      by_cases hs : s = "" <;>
        simp [addTagFiltersNoTag, hs, dictLookup_dictSet_ne _ k _ _ h₄.symm]
    | none, _, none => rfl
  match tag with
  | some t =>
    by_cases ht : t = "" <;>
      simp [addTagFilters, ht, base, dictLookup_dictSet_ne _ k _ _ h₁.symm]
  | none => simpa [addTagFilters] using base

theorem queryEntries_addTagFilters_ne (p : QueryParams) (k : String)
    (tag : Option String) (tid : Option Int) (rt : Option Bool) (ts : Option String)
    (h₁ : k ≠ "tag") (h₂ : k ≠ "tag_id") (h₃ : k ≠ "related_tags")
    (h₄ : k ≠ "tag_slug") :
    queryEntries (addTagFilters p tag tid rt ts) k = queryEntries p k := by
  have base : queryEntries (addTagFiltersNoTag p tid rt ts) k = queryEntries p k := by
    match tid, rt, ts with
    | some n, some b, _ =>
      simp [addTagFiltersNoTag, queryEntries_dictSet_ne _ k _ _ h₃.symm,
        queryEntries_dictSet_ne _ k _ _ h₂.symm]
    | some n, none, _ =>
      simp [addTagFiltersNoTag, queryEntries_dictSet_ne _ k _ _ h₂.symm]
    | none, _, some s =>
      by_cases hs : s = "" <;>
        simp [addTagFiltersNoTag, hs, queryEntries_dictSet_ne _ k _ _ h₄.symm]
    | none, _, none => rfl
  match tag with
  | some t =>
    by_cases ht : t = "" <;>
      simp [addTagFilters, ht, base, queryEntries_dictSet_ne _ k _ _ h₁.symm]
  | none => simpa [addTagFilters] using base

theorem queryEntries_of_dictLookup_none (p : QueryParams) (k : String)
    (h : dictLookup p k = none) : queryEntries p k = [] := by
  induction p with
  | nil => rfl
  | cons e rest ih =>
    obtain ⟨k', v⟩ := e
    by_cases h' : k' = k
    · simp [dictLookup, h'] at h
    · simp [dictLookup, h'] at h
      simp [queryEntries, h', ih h]

theorem dictSet_eq_append (p : QueryParams) (k : String) (v : QVal)
    (h : dictLookup p k = none) : dictSet p k v = p ++ [(k, v)] := by
  induction p with
  | nil => rfl
  | cons e rest ih =>
    obtain ⟨k', v'⟩ := e
    by_cases h' : k' = k
    · simp [dictLookup, h'] at h
    · simp [dictLookup, h'] at h
      simp [dictSet, h', ih h]

theorem queryEntries_append (p q : QueryParams) (k : String) :
    queryEntries (p ++ q) k = queryEntries p k ++ queryEntries q k := by
  induction p with
  | nil => rfl
  | cons e rest ih =>
    obtain ⟨k', v⟩ := e
    by_cases h' : k' = k <;> simp [queryEntries, h', ih]

theorem dictLookup_append_self (p : QueryParams) (k : String) (v : QVal)
    (h : dictLookup p k = none) : dictLookup (p ++ [(k, v)]) k = some v := by
  rw [← dictSet_eq_append p k v h]
  exact dictLookup_dictSet_self p k v

theorem dictSet_append_self (p : QueryParams) (k : String) (v w : QVal)
    (h : dictLookup p k = none) : dictSet (p ++ [(k, v)]) k w = p ++ [(k, w)] := by
  induction p with
  | nil => simp [dictSet]
  | cons e rest ih =>
    obtain ⟨k', v'⟩ := e
    by_cases h' : k' = k
    · simp [dictLookup, h'] at h
    · simp [dictLookup, h'] at h
      simp [dictSet, h', ih h]

theorem foldl_dictAppend_acc {α : Type} (f : α → QVal) (xs : List α)
    (p : QueryParams) (k : String) (acc : List QVal)
    (h : dictLookup p k = none) :
    xs.foldl (fun q x => dictAppend q k (f x)) (p ++ [(k, QVal.qList acc)])
      = p ++ [(k, QVal.qList (acc ++ xs.map f))] := by
  induction xs generalizing acc with
  | nil => simp
  | cons x xs ih =>
    have hstep : dictAppend (p ++ [(k, QVal.qList acc)]) k (f x)
        = p ++ [(k, QVal.qList (acc ++ [f x]))] := by
      simp [dictAppend, dictLookup_append_self p k _ h, dictSet_append_self p k _ _ h]
    simp only [List.foldl_cons, hstep, ih (acc ++ [f x])]
    simp

theorem foldl_dictAppend_fresh {α : Type} (f : α → QVal) (x : α) (xs : List α)
    (p : QueryParams) (k : String) (h : dictLookup p k = none) :
    (x :: xs).foldl (fun q y => dictAppend q k (f y)) p
      = p ++ [(k, QVal.qList ((x :: xs).map f))] := by
  have hstep : dictAppend p k (f x) = p ++ [(k, QVal.qList [f x])] := by
    simp [dictAppend, h, dictSet_eq_append p k _ h]
  simp only [List.foldl_cons, hstep, foldl_dictAppend_acc f xs p k [f x] h]
  simp

theorem queryEntries_dictSet_fresh (p : QueryParams) (k : String) (v : QVal)
    (h : dictLookup p k = none) :
    queryEntries (dictSet p k v) k = encodeVal v := by
  rw [dictSet_eq_append p k v h, queryEntries_append,
    queryEntries_of_dictLookup_none p k h]
  simp [queryEntries]

theorem addRelatedTags_no_tag_id (p : QueryParams) (rt : Option Bool) :
    addRelatedTags p rt none = p := by
  cases rt <;> rfl

theorem addRelatedTags_none_rt (p : QueryParams) (tid : Option Int) :
    addRelatedTags p none tid = p := by
  cases tid <;> rfl

theorem addIfSome_none (p : QueryParams) (k : String) : addIfSome p k none = p := rfl

theorem addIfSome_some (p : QueryParams) (k : String) (v : QVal) :
    addIfSome p k (some v) = dictSet p k v := rfl

theorem addIfTruthy_none (p : QueryParams) (k : String) : addIfTruthy p k none = p := rfl

theorem addIfTruthy_some (p : QueryParams) (k : String) (s : String) (h : s ≠ "") :
    addIfTruthy p k (some s) = dictSet p k (QVal.qStr s) := by
  simp [addIfTruthy, h]

theorem addIntListArg_none (p : QueryParams) (k : String) : addIntListArg p k none = p := rfl

theorem addStrListArg_none (p : QueryParams) (k : String) : addStrListArg p k none = p := rfl

/-- Upstream behaviour in which every issued request fails: either a
network-level failure or a response whose status is not 2xx (so
raise_for_status raises).  Exactly the failures the request executor
can raise once a request was issued. -/
def requestAlwaysFails (u : Upstream) : Prop :=
  ∀ req : Request,
    match u req with
    | Except.error _ => True
    | Except.ok resp => isSuccessStatus resp.status = false

theorem get_markets_default_of_fails (u : Upstream) (h : requestAlwaysFails u)
    (a : GetMarketsArgs) :
    (get_markets u a).2 = JsonVal.jObj [("markets", JsonVal.jArr [])] := by
  have hreq := h ⟨"markets", "GET", getMarketsParams a, none⟩
  unfold get_markets make_api_request
  simp only [if_pos rfl]
  revert hreq
  cases hu : u ⟨"markets", "GET", getMarketsParams a, none⟩ with
  | error msg => intro _; simp [hu]
  | ok resp => intro hreq; simp [hu] at hreq ⊢; simp [hreq]

theorem get_events_default_of_fails (u : Upstream) (h : requestAlwaysFails u)
    (a : GetEventsArgs) :
    (get_events u a).2 = JsonVal.jObj [("events", JsonVal.jArr [])] := by
  have hreq := h ⟨"events", "GET", getEventsParams a, none⟩
  unfold get_events make_api_request
  simp only [if_pos rfl]
  revert hreq
  cases hu : u ⟨"events", "GET", getEventsParams a, none⟩ with
  | error msg => intro _; simp [hu]
  | ok resp => intro hreq; simp [hu] at hreq ⊢; simp [hreq]

theorem get_recent_trades_default_of_fails (u : Upstream) (h : requestAlwaysFails u)
    (market_id : String) (limit : Int) :
    (get_recent_trades u market_id limit).2
      = JsonVal.jObj [("trades", JsonVal.jArr [])] := by
  have hreq := h ⟨"markets/" ++ market_id ++ "/trades", "GET",
    [("limit", QVal.qInt limit)], none⟩
  unfold get_recent_trades make_api_request
  simp only [if_pos rfl]
  revert hreq
  cases hu : u ⟨"markets/" ++ market_id ++ "/trades", "GET",
      [("limit", QVal.qInt limit)], none⟩ with
  | error msg => intro _; simp [hu]
  | ok resp => intro hreq; simp [hu] at hreq ⊢; simp [hreq]

theorem get_market_history_default_of_fails (u : Upstream) (h : requestAlwaysFails u)
    (market_id : String) (resolution : String) :
    (get_market_history u market_id resolution).2
      = JsonVal.jObj [("history", JsonVal.jArr [])] := by
  have hreq := h ⟨"markets/" ++ market_id ++ "/history", "GET",
    [("resolution", QVal.qStr resolution)], none⟩
  unfold get_market_history make_api_request
  simp only [if_pos rfl]
  revert hreq
  cases hu : u ⟨"markets/" ++ market_id ++ "/history", "GET",
      [("resolution", QVal.qStr resolution)], none⟩ with
  | error msg => intro _; simp [hu]
  | ok resp => intro hreq; simp [hu] at hreq ⊢; simp [hreq]

theorem search_markets_default_of_fails (u : Upstream) (h : requestAlwaysFails u)
    (query : String) (limit : Int) :
    (search_markets u query limit).2
      = JsonVal.jObj [("markets", JsonVal.jArr [])] := by
  have hreq := h ⟨"markets", "GET",
    [("slug", QVal.qStr query), ("limit", QVal.qInt limit)], none⟩
  unfold search_markets make_api_request
  simp only [if_pos rfl]
  revert hreq
  cases hu : u ⟨"markets", "GET",
      [("slug", QVal.qStr query), ("limit", QVal.qInt limit)], none⟩ with
  | error msg => intro _; simp [hu]
  | ok resp => intro hreq; simp [hu] at hreq ⊢; simp [hreq]

/-- C1: for every read tool operation of the market-data variant
(get_markets, get_events, search_markets, get_recent_trades,
get_market_history) and every failure the request executor can raise
(network-level failure, or a non-2xx upstream status such as 404), the
operation catches the failure and returns the empty default matching its
declared shape; the operations are total functions into JSON values, so
no exception propagates to the caller. -/
theorem read_ops_return_empty_default_on_failure (u : Upstream)
    (h : requestAlwaysFails u) :
    (∀ a : GetMarketsArgs,
        (get_markets u a).2 = JsonVal.jObj [("markets", JsonVal.jArr [])]) ∧
    (∀ a : GetEventsArgs,
        (get_events u a).2 = JsonVal.jObj [("events", JsonVal.jArr [])]) ∧
    (∀ query limit,
        (search_markets u query limit).2
          = JsonVal.jObj [("markets", JsonVal.jArr [])]) ∧
    (∀ market_id limit,
        (get_recent_trades u market_id limit).2
          = JsonVal.jObj [("trades", JsonVal.jArr [])]) ∧
    (∀ market_id resolution,
        (get_market_history u market_id resolution).2
          = JsonVal.jObj [("history", JsonVal.jArr [])]) :=
  ⟨get_markets_default_of_fails u h,
   get_events_default_of_fails u h,
   fun q l => search_markets_default_of_fails u h q l,
   fun m l => get_recent_trades_default_of_fails u h m l,
   fun m r => get_market_history_default_of_fails u h m r⟩

/-- Witness for C1: an upstream that answers every request with HTTP 404
satisfies the failure hypothesis, and get_markets with no arguments then
returns the empty markets envelope. -/
theorem read_ops_return_empty_default_on_failure_witness :
    requestAlwaysFails (fun _ => Except.ok ⟨404, JsonVal.jNull⟩) ∧
    (get_markets (fun _ => Except.ok ⟨404, JsonVal.jNull⟩) {}).2
      = JsonVal.jObj [("markets", JsonVal.jArr [])] :=
  ⟨fun _ => rfl,
   (read_ops_return_empty_default_on_failure
      (fun _ => Except.ok ⟨404, JsonVal.jNull⟩) (fun _ => rfl)).1 {}⟩

/-- C6: on a successful (2xx) upstream response, get_markets returns the
upstream JSON object exactly as received — the passthrough envelope,
container key included — for every argument vector and every response
value. -/
theorem get_markets_passthrough (u : Upstream) (a : GetMarketsArgs)
    (resp : HttpResponse)
    (hu : u ⟨"markets", "GET", getMarketsParams a, none⟩ = Except.ok resp)
    (hs : isSuccessStatus resp.status = true) :
    (get_markets u a).2 = resp.body := by
  unfold get_markets make_api_request
  simp [hu, hs]

/-- Witness for C6: a mocked upstream answering 200 with the envelope
containing one market object; get_markets with no arguments returns that
envelope unmodified. -/
theorem get_markets_passthrough_witness :
    (get_markets
        (fun _ => Except.ok ⟨200,
          JsonVal.jObj [("markets",
            JsonVal.jArr [JsonVal.jObj [("id", JsonVal.jInt 123)]])]⟩) {}).2
      = JsonVal.jObj [("markets",
          JsonVal.jArr [JsonVal.jObj [("id", JsonVal.jInt 123)]])] :=
  get_markets_passthrough
    (fun _ => Except.ok ⟨200,
      JsonVal.jObj [("markets",
        JsonVal.jArr [JsonVal.jObj [("id", JsonVal.jInt 123)]])]⟩)
    {} ⟨200, JsonVal.jObj [("markets",
      JsonVal.jArr [JsonVal.jObj [("id", JsonVal.jInt 123)]])]⟩ rfl rfl

/-- C7: for every method argument other than "GET" or "POST", the
request executor fails with the local unsupported-method error (Python
ValueError, the spec's ConfigurationError) and the list of requests that
reached the transport is empty — the error is raised before any network
call, for every upstream behaviour. -/
theorem make_api_request_unsupported_method (u : Upstream) (endpoint : String)
    (params : QueryParams) (method : String) (data : Option JsonVal)
    (h₁ : method ≠ "GET") (h₂ : method ≠ "POST") :
    make_api_request u endpoint params method data
      = ([], Except.error
          (ApiError.valueError ("Unsupported HTTP method: " ++ method))) := by
  unfold make_api_request
  rw [if_neg h₁, if_neg h₂]

/-- Witness for C7: method "DELETE" against an upstream that would
answer 200 still yields the local error and issues no request. -/
theorem make_api_request_unsupported_method_witness :
    make_api_request (fun _ => Except.ok ⟨200, JsonVal.jNull⟩) "markets" []
        "DELETE" none
      = ([], Except.error
          (ApiError.valueError ("Unsupported HTTP method: " ++ "DELETE"))) :=
  make_api_request_unsupported_method (fun _ => Except.ok ⟨200, JsonVal.jNull⟩)
    "markets" [] "DELETE" none (by decide) (by decide)

/-- C8: every resource projection is a total function into strings that
wraps exactly one tool operation and returns that operation's result
serialized as indented JSON text, for every upstream behaviour and
argument (the wrapped operations are total, so the projections' except
branches — which would return a human-readable error string — are
unreachable and no exception escapes).  The last conjunct evaluates one
projection under a failing upstream to the concrete indented text. -/
theorem resources_wrap_and_serialize :
    (∀ u : Upstream, markets_resource u = jsonDumps (get_markets u {}).2) ∧
    (∀ (u : Upstream) (market_id : String),
        market_details_resource u market_id
          = jsonDumps (get_market_by_id u market_id).2) ∧
    (∀ (u : Upstream) (query : String),
        search_markets_resource u query
          = jsonDumps (search_markets u query 20).2) ∧
    (∀ u : Upstream, events_resource u = jsonDumps (get_events u {}).2) ∧
    (∀ (u : Upstream) (event_id : String),
        event_details_resource u event_id
          = jsonDumps (get_event_by_id u event_id).2) ∧
    markets_resource (fun _ => Except.ok ⟨404, JsonVal.jNull⟩)
      = "\x7b\n  \"markets\": []\n\x7d" :=
  ⟨fun _ => rfl, fun _ _ => rfl, fun _ _ => rfl, fun _ => rfl, fun _ _ => rfl, rfl⟩

/-- C9: in get_markets the related_tags argument reaches the outgoing
query only together with tag_id: whenever related_tags is supplied but
tag_id is None, the query has no "related_tags" entry — the supplied
value is silently dropped. -/
theorem get_markets_related_tags_requires_tag_id (a : GetMarketsArgs)
    (h₁ : a.related_tags ≠ none) (h₂ : a.tag_id = none) :
    queryEntries (getMarketsParams a) "related_tags" = [] := by
  simp [getMarketsParams, h₂, addRelatedTags_no_tag_id, addIfSome_none,
    queryEntries_addIfSome_ne, queryEntries_addIfTruthy_ne,
    queryEntries_addIntListArg_ne, queryEntries_addStrListArg_ne, queryEntries]

/-- Witness for C9: related_tags=true with tag_id unset yields a query
with no related_tags entry. -/
theorem get_markets_related_tags_requires_tag_id_witness :
    queryEntries (getMarketsParams { related_tags := some true }) "related_tags"
      = [] :=
  get_markets_related_tags_requires_tag_id { related_tags := some true }
    (by simp) rfl

theorem make_api_request_get_requests (u : Upstream) (e : String) (p : QueryParams) :
    (make_api_request u e p "GET" none).1 = [⟨e, "GET", p, none⟩] := by
  unfold make_api_request
  simp only [if_pos rfl]
  cases u ⟨e, "GET", p, none⟩ with
  | error m => rfl
  | ok resp => by_cases hs : isSuccessStatus resp.status <;> simp [hs]

theorem get_markets_requests (u : Upstream) (a : GetMarketsArgs) :
    (get_markets u a).1 = [⟨"markets", "GET", getMarketsParams a, none⟩] := by
  unfold get_markets
  cases hr : (make_api_request u "markets" (getMarketsParams a) "GET" none).2 <;>
    simp [hr, make_api_request_get_requests]

/-- Counterexample to C2 as stated: in the call get_markets(status="open")
the optional filter parameter active is left at its unset sentinel None,
yet the outgoing query does contain an entry for it (active=true), because
the deprecated status mapping overwrites active before the parameter set
is built. -/
theorem get_markets_unset_param_counterexample :
    ({ status := some "open" } : GetMarketsArgs).active = none ∧
    queryEntries (getMarketsParams { status := some "open" }) "active"
      = [QVal.qBool true] :=
  ⟨rfl, by rfl⟩

/-- C2 as amended: an optional filter parameter of get_markets whose value
is still at the unset sentinel None after the deprecated status mapping
(which may overwrite active/closed/archived, and is applied before the
parameter set is built) contributes no entry to the outgoing query; in
particular, calling get_markets with no arguments issues exactly one GET
request to the "markets" endpoint with an empty query parameter set. -/
theorem get_markets_unset_params_absent (a : GetMarketsArgs) :
    (∀ u : Upstream, (get_markets u {}).1 = [⟨"markets", "GET", [], none⟩]) ∧
    (a.limit = none → queryEntries (getMarketsParams a) "limit" = []) ∧
    (a.offset = none → queryEntries (getMarketsParams a) "offset" = []) ∧
    (a.order = none → queryEntries (getMarketsParams a) "order" = []) ∧
    (a.ascending = none → queryEntries (getMarketsParams a) "ascending" = []) ∧
    (a.id = none → queryEntries (getMarketsParams a) "id" = []) ∧
    (a.slug = none → queryEntries (getMarketsParams a) "slug" = []) ∧
    ((applyStatus a.status a.active a.closed a.archived).2.2 = none →
      queryEntries (getMarketsParams a) "archived" = []) ∧
    ((applyStatus a.status a.active a.closed a.archived).1 = none →
      queryEntries (getMarketsParams a) "active" = []) ∧
    ((applyStatus a.status a.active a.closed a.archived).2.1 = none →
      queryEntries (getMarketsParams a) "closed" = []) ∧
    (a.clob_token_ids = none →
      queryEntries (getMarketsParams a) "clob_token_ids" = []) ∧
    (a.condition_ids = none →
      queryEntries (getMarketsParams a) "condition_ids" = []) ∧
    (a.liquidity_num_min = none →
      queryEntries (getMarketsParams a) "liquidity_num_min" = []) ∧
    (a.liquidity_num_max = none →
      queryEntries (getMarketsParams a) "liquidity_num_max" = []) ∧
    (a.volume_num_min = none →
      queryEntries (getMarketsParams a) "volume_num_min" = []) ∧
    (a.volume_num_max = none →
      queryEntries (getMarketsParams a) "volume_num_max" = []) ∧
    (a.start_date_min = none →
      queryEntries (getMarketsParams a) "start_date_min" = []) ∧
    (a.start_date_max = none →
      queryEntries (getMarketsParams a) "start_date_max" = []) ∧
    (a.end_date_min = none →
      queryEntries (getMarketsParams a) "end_date_min" = []) ∧
    (a.end_date_max = none →
      queryEntries (getMarketsParams a) "end_date_max" = []) ∧
    (a.tag_id = none → queryEntries (getMarketsParams a) "tag_id" = []) ∧
    (a.related_tags = none →
      queryEntries (getMarketsParams a) "related_tags" = []) := by
  refine ⟨fun u => get_markets_requests u {}, fun h => ?_, fun h => ?_, fun h => ?_,
    fun h => ?_, fun h => ?_, fun h => ?_, fun h => ?_, fun h => ?_, fun h => ?_,
    fun h => ?_, fun h => ?_, fun h => ?_, fun h => ?_, fun h => ?_, fun h => ?_,
    fun h => ?_, fun h => ?_, fun h => ?_, fun h => ?_, fun h => ?_, fun h => ?_⟩ <;>
  simp [getMarketsParams, h, addIfSome_none, addIfTruthy_none, addIntListArg_none,
    addStrListArg_none, addRelatedTags_none_rt, queryEntries_addIfSome_ne,
    queryEntries_addIfTruthy_ne, queryEntries_addIntListArg_ne,
    queryEntries_addStrListArg_ne, queryEntries_addRelatedTags_ne, queryEntries]

/-- Witness for C2 (amended): with no arguments every hypothesis holds
definitionally and the query is empty; shown here for the "limit" key and
the issued request list. -/
theorem get_markets_unset_params_absent_witness :
    queryEntries (getMarketsParams {}) "limit" = [] ∧
    (get_markets (fun _ => Except.ok ⟨200, JsonVal.jNull⟩) {}).1
      = [⟨"markets", "GET", [], none⟩] :=
  ⟨(get_markets_unset_params_absent {}).2.1 rfl,
   (get_markets_unset_params_absent {}).1 (fun _ => Except.ok ⟨200, JsonVal.jNull⟩)⟩

theorem queryEntries_addIfSome_self (p : QueryParams) (k : String) (v : QVal)
    (h : dictLookup p k = none) :
    queryEntries (addIfSome p k (some v)) k = encodeVal v := by
  simp [addIfSome_some, queryEntries_dictSet_fresh p k v h]

theorem queryEntries_addIntListArg_single (p : QueryParams) (k : String) (n : Int)
    (h : dictLookup p k = none) :
    queryEntries (addIntListArg p k (some (IntListArg.single n))) k
      = [QVal.qInt n] := by
  simp [addIntListArg, queryEntries_dictSet_fresh p k _ h, encodeVal]

theorem queryEntries_addIntListArg_list (p : QueryParams) (k : String)
    (ns : List Int) (h : dictLookup p k = none) :
    queryEntries (addIntListArg p k (some (IntListArg.list ns))) k
      = ns.map QVal.qInt := by
  match ns with
  | [] => simp [addIntListArg, queryEntries_of_dictLookup_none p k h]
  | n :: ns =>
    show queryEntries ((n :: ns).foldl (fun q x => dictAppend q k (QVal.qInt x)) p) k = _
    rw [foldl_dictAppend_fresh _ n ns p k h, queryEntries_append,
      queryEntries_of_dictLookup_none p k h]
    simp [queryEntries, encodeVal]

theorem queryEntries_addStrListArg_single (p : QueryParams) (k : String) (s : String)
    (h : dictLookup p k = none) :
    queryEntries (addStrListArg p k (some (StrListArg.single s))) k
      = [QVal.qStr s] := by
  simp [addStrListArg, queryEntries_dictSet_fresh p k _ h, encodeVal]

theorem queryEntries_addStrListArg_list (p : QueryParams) (k : String)
    (ss : List String) (h : dictLookup p k = none) :
    queryEntries (addStrListArg p k (some (StrListArg.list ss))) k
      = ss.map QVal.qStr := by
  match ss with
  | [] => simp [addStrListArg, queryEntries_of_dictLookup_none p k h]
  | s :: ss =>
    show queryEntries ((s :: ss).foldl (fun q x => dictAppend q k (QVal.qStr x)) p) k = _
    rw [foldl_dictAppend_fresh _ s ss p k h, queryEntries_append,
      queryEntries_of_dictLookup_none p k h]
    simp [queryEntries, encodeVal]

/-- C3: a list-valued filter parameter of get_markets (id, slug,
clob_token_ids, condition_ids) supplied as a list of N elements
produces exactly N outgoing query entries under that key, one per list
element in the given order (never a single comma-joined or JSON-encoded
entry), and a scalar value produces exactly one entry. -/
theorem get_markets_list_params_repeat_keys (a : GetMarketsArgs) :
    (∀ ns, a.id = some (IntListArg.list ns) →
        queryEntries (getMarketsParams a) "id" = ns.map QVal.qInt) ∧
    (∀ n, a.id = some (IntListArg.single n) →
        queryEntries (getMarketsParams a) "id" = [QVal.qInt n]) ∧
    (∀ ss, a.slug = some (StrListArg.list ss) →
        queryEntries (getMarketsParams a) "slug" = ss.map QVal.qStr) ∧
    (∀ s, a.slug = some (StrListArg.single s) →
        queryEntries (getMarketsParams a) "slug" = [QVal.qStr s]) ∧
    (∀ ss, a.clob_token_ids = some (StrListArg.list ss) →
        queryEntries (getMarketsParams a) "clob_token_ids" = ss.map QVal.qStr) ∧
    (∀ s, a.clob_token_ids = some (StrListArg.single s) →
        queryEntries (getMarketsParams a) "clob_token_ids" = [QVal.qStr s]) ∧
    (∀ ss, a.condition_ids = some (StrListArg.list ss) →
        queryEntries (getMarketsParams a) "condition_ids" = ss.map QVal.qStr) ∧
    (∀ s, a.condition_ids = some (StrListArg.single s) →
        queryEntries (getMarketsParams a) "condition_ids" = [QVal.qStr s]) := by
  refine ⟨fun v h => ?_, fun v h => ?_, fun v h => ?_, fun v h => ?_,
    fun v h => ?_, fun v h => ?_, fun v h => ?_, fun v h => ?_⟩ <;>
  simp [getMarketsParams, h, queryEntries_addIfSome_ne, queryEntries_addIfTruthy_ne,
    queryEntries_addIntListArg_ne, queryEntries_addStrListArg_ne,
    queryEntries_addRelatedTags_ne, queryEntries_addIntListArg_list,
    queryEntries_addIntListArg_single, queryEntries_addStrListArg_list,
    queryEntries_addStrListArg_single, dictLookup_addIfSome_ne,
    dictLookup_addIfTruthy_ne, dictLookup_addIntListArg_ne,
    dictLookup_addStrListArg_ne, dictLookup]

/-- Witness for C3: id=[7,8,9] yields three repeated id entries in order,
and a scalar slug yields one slug entry. -/
theorem get_markets_list_params_repeat_keys_witness :
    queryEntries
        (getMarketsParams { id := some (IntListArg.list [7, 8, 9]) }) "id"
      = [QVal.qInt 7, QVal.qInt 8, QVal.qInt 9] ∧
    queryEntries
        (getMarketsParams { slug := some (StrListArg.single "btc") }) "slug"
      = [QVal.qStr "btc"] :=
  ⟨(get_markets_list_params_repeat_keys
      { id := some (IntListArg.list [7, 8, 9]) }).1 [7, 8, 9] rfl,
   (get_markets_list_params_repeat_keys
      { slug := some (StrListArg.single "btc") }).2.2.2.1 "btc" rfl⟩

theorem pyLower_open : pyLower "open" = "open" := rfl

theorem pyLower_closed : pyLower "closed" = "closed" := rfl

theorem pyLower_archived : pyLower "archived" = "archived" := rfl

/-- C5: the deprecated scalar status filter of get_markets maps to
exactly one boolean flag: status="open" puts active=true in the outgoing
query, status="closed" puts closed=true, status="archived" puts
archived=true; and in each case the whole parameter set is the one the
corresponding boolean argument alone would produce, so no other query
key is set as a consequence of status. -/
theorem get_markets_status_maps_to_single_flag (a : GetMarketsArgs) :
    (a.status = some "open" →
      queryEntries (getMarketsParams a) "active" = [QVal.qBool true] ∧
      getMarketsParams a
        = getMarketsParams { a with status := none, active := some true }) ∧
    (a.status = some "closed" →
      queryEntries (getMarketsParams a) "closed" = [QVal.qBool true] ∧
      getMarketsParams a
        = getMarketsParams { a with status := none, closed := some true }) ∧
    (a.status = some "archived" →
      queryEntries (getMarketsParams a) "archived" = [QVal.qBool true] ∧
      getMarketsParams a
        = getMarketsParams { a with status := none, archived := some true }) := by
  refine ⟨fun h => ⟨?_, ?_⟩, fun h => ⟨?_, ?_⟩, fun h => ⟨?_, ?_⟩⟩ <;>
  simp [getMarketsParams, applyStatus, h, pyLower_open, pyLower_closed,
    pyLower_archived, queryEntries_addIfSome_ne, queryEntries_addIfTruthy_ne,
    queryEntries_addIntListArg_ne, queryEntries_addStrListArg_ne,
    queryEntries_addRelatedTags_ne, queryEntries_addIfSome_self,
    dictLookup_addIfSome_ne, dictLookup_addIfTruthy_ne,
    dictLookup_addIntListArg_ne, dictLookup_addStrListArg_ne, dictLookup, encodeVal]

/-- Witness for C5: status="open" alone yields exactly the query
active=true, equal to the parameter set of active=true alone. -/
theorem get_markets_status_maps_to_single_flag_witness :
    queryEntries (getMarketsParams { status := some "open" }) "active"
      = [QVal.qBool true] ∧
    getMarketsParams { status := some "open" }
      = getMarketsParams { active := some true } :=
  (get_markets_status_maps_to_single_flag { status := some "open" }).1 rfl

/-- C10: a recognized status value of get_markets overrides an explicitly
supplied boolean flag — status="open" with active=False still puts
active=true in the outgoing query (the mapping overwrites the caller's
argument before the parameter set is built), likewise status="closed"
over closed=False and status="archived" over archived=False; and an
unrecognized non-empty status value sets no query key and raises no
error: the parameter set is exactly the one built with status unset. -/
theorem get_markets_status_overrides_explicit_flags (a : GetMarketsArgs) :
    (a.status = some "open" → a.active = some false →
      queryEntries (getMarketsParams a) "active" = [QVal.qBool true]) ∧
    (a.status = some "closed" → a.closed = some false →
      queryEntries (getMarketsParams a) "closed" = [QVal.qBool true]) ∧
    (a.status = some "archived" → a.archived = some false →
      queryEntries (getMarketsParams a) "archived" = [QVal.qBool true]) ∧
    (∀ s, a.status = some s → s ≠ "" → pyLower s ≠ "open" →
      pyLower s ≠ "closed" → pyLower s ≠ "archived" →
      getMarketsParams a = getMarketsParams { a with status := none }) := by
  refine ⟨fun h _ => ?_, fun h _ => ?_, fun h _ => ?_,
    fun s h hs h₁ h₂ h₃ => ?_⟩
  · simp [getMarketsParams, applyStatus, h, pyLower_open,
      queryEntries_addIfSome_ne, queryEntries_addIfTruthy_ne,
      queryEntries_addIntListArg_ne, queryEntries_addStrListArg_ne,
      queryEntries_addRelatedTags_ne, queryEntries_addIfSome_self,
      dictLookup_addIfSome_ne, dictLookup_addIfTruthy_ne,
      dictLookup_addIntListArg_ne, dictLookup_addStrListArg_ne, dictLookup,
      encodeVal]
  · simp [getMarketsParams, applyStatus, h, pyLower_closed,
      queryEntries_addIfSome_ne, queryEntries_addIfTruthy_ne,
      queryEntries_addIntListArg_ne, queryEntries_addStrListArg_ne,
      queryEntries_addRelatedTags_ne, queryEntries_addIfSome_self,
      dictLookup_addIfSome_ne, dictLookup_addIfTruthy_ne,
      dictLookup_addIntListArg_ne, dictLookup_addStrListArg_ne, dictLookup,
      encodeVal]
  · simp [getMarketsParams, applyStatus, h, pyLower_archived,
      queryEntries_addIfSome_ne, queryEntries_addIfTruthy_ne,
      queryEntries_addIntListArg_ne, queryEntries_addStrListArg_ne,
      queryEntries_addRelatedTags_ne, queryEntries_addIfSome_self,
      dictLookup_addIfSome_ne, dictLookup_addIfTruthy_ne,
      dictLookup_addIntListArg_ne, dictLookup_addStrListArg_ne, dictLookup,
      encodeVal]
  · simp [getMarketsParams, applyStatus, h, hs, h₁, h₂, h₃]

/-- Witness for C10: get_markets(status="open", active=False) still sends
active=true, and the unrecognized status "foo" leaves the parameter set
exactly as if status were unset. -/
theorem get_markets_status_overrides_explicit_flags_witness :
    queryEntries
        (getMarketsParams { active := some false, status := some "open" })
        "active" = [QVal.qBool true] ∧
    getMarketsParams { status := some "foo" } = getMarketsParams {} :=
  ⟨(get_markets_status_overrides_explicit_flags
      { active := some false, status := some "open" }).1 rfl rfl,
   (get_markets_status_overrides_explicit_flags
      { status := some "foo" }).2.2.2 "foo" rfl (by decide) (by decide)
      (by decide) (by decide)⟩

theorem addTagFilters_some_ne (p : QueryParams) (tid : Option Int)
    (rt : Option Bool) (ts : Option String) (t : String) (ht : t ≠ "") :
    addTagFilters p (some t) tid rt ts = dictSet p "tag" (QVal.qStr t) := by
  simp [addTagFilters, ht]

theorem addTagFilters_none_eq (p : QueryParams) (tid : Option Int)
    (rt : Option Bool) (ts : Option String) :
    addTagFilters p none tid rt ts = addTagFiltersNoTag p tid rt ts := rfl

theorem addTagFilters_empty_eq (p : QueryParams) (tid : Option Int)
    (rt : Option Bool) (ts : Option String) :
    addTagFilters p (some "") tid rt ts = addTagFiltersNoTag p tid rt ts := by
  simp [addTagFilters]

theorem addTagFiltersNoTag_slug_eq (p : QueryParams) (rt : Option Bool)
    (s : String) (hs : s ≠ "") :
    addTagFiltersNoTag p none rt (some s) = dictSet p "tag_slug" (QVal.qStr s) := by
  simp [addTagFiltersNoTag, hs]

theorem queryEntries_addTagFiltersNoTag_tid_ne (p : QueryParams) (n : Int)
    (rt : Option Bool) (ts : Option String) (k : String)
    (h₂ : k ≠ "tag_id") (h₃ : k ≠ "related_tags") :
    queryEntries (addTagFiltersNoTag p (some n) rt ts) k = queryEntries p k := by
  cases rt <;>
    simp [addTagFiltersNoTag, queryEntries_dictSet_ne _ k _ _ h₂.symm,
      queryEntries_dictSet_ne _ k _ _ h₃.symm]

theorem queryEntries_addTagFiltersNoTag_tag_id (p : QueryParams) (n : Int)
    (rt : Option Bool) (ts : Option String) (h : dictLookup p "tag_id" = none) :
    queryEntries (addTagFiltersNoTag p (some n) rt ts) "tag_id"
      = [QVal.qInt n] := by
  cases rt <;>
    simp [addTagFiltersNoTag, queryEntries_dictSet_ne,
      queryEntries_dictSet_fresh p "tag_id" _ h, encodeVal]

theorem queryEntries_addTagFiltersNoTag_related (p : QueryParams) (n : Int)
    (b : Bool) (ts : Option String) (h : dictLookup p "related_tags" = none) :
    queryEntries (addTagFiltersNoTag p (some n) (some b) ts) "related_tags"
      = [QVal.qBool b] := by
  have hq : dictLookup (dictSet p "tag_id" (QVal.qInt n)) "related_tags" = none := by
    simp [dictLookup_dictSet_ne, h]
  simp [addTagFiltersNoTag, queryEntries_dictSet_fresh _ "related_tags" _ hq, encodeVal]

theorem queryEntries_addTagFiltersNoTag_related_none (p : QueryParams) (n : Int)
    (ts : Option String) (h : dictLookup p "related_tags" = none) :
    queryEntries (addTagFiltersNoTag p (some n) none ts) "related_tags" = [] := by
  simp [addTagFiltersNoTag, queryEntries_dictSet_ne,
    queryEntries_of_dictLookup_none p _ h]

/-- C4: in get_events the tag filters are mutually exclusive with strict
priority tag > tag_id > tag_slug.  A truthy tag wins: only "tag" appears
in the outgoing query and tag_id, related_tags and tag_slug are silently
dropped.  With tag absent (None or empty) and tag_id supplied, "tag_id"
appears, "related_tags" exactly when provided, and tag_slug is dropped.
Only with tag and tag_id both absent does a truthy tag_slug appear. -/
theorem get_events_tag_filter_priority (a : GetEventsArgs) :
    (∀ t, a.tag = some t → t ≠ "" →
      queryEntries (getEventsParams a) "tag" = [QVal.qStr t] ∧
      queryEntries (getEventsParams a) "tag_id" = [] ∧
      queryEntries (getEventsParams a) "related_tags" = [] ∧
      queryEntries (getEventsParams a) "tag_slug" = []) ∧
    ((a.tag = none ∨ a.tag = some "") → ∀ n, a.tag_id = some n →
      queryEntries (getEventsParams a) "tag_id" = [QVal.qInt n] ∧
      (∀ b, a.related_tags = some b →
        queryEntries (getEventsParams a) "related_tags" = [QVal.qBool b]) ∧
      (a.related_tags = none →
        queryEntries (getEventsParams a) "related_tags" = []) ∧
      queryEntries (getEventsParams a) "tag" = [] ∧
      queryEntries (getEventsParams a) "tag_slug" = []) ∧
    ((a.tag = none ∨ a.tag = some "") → a.tag_id = none →
      ∀ s, a.tag_slug = some s → s ≠ "" →
      queryEntries (getEventsParams a) "tag_slug" = [QVal.qStr s] ∧
      queryEntries (getEventsParams a) "tag" = [] ∧
      queryEntries (getEventsParams a) "tag_id" = [] ∧
      queryEntries (getEventsParams a) "related_tags" = []) := by
  refine ⟨fun t h ht => ?_, fun htag n h => ?_, fun htag h₀ s h hs => ?_⟩
  · refine ⟨?_, ?_, ?_, ?_⟩ <;>
      simp [getEventsParams, h, ht, addTagFilters_some_ne,
        queryEntries_dictSet_ne, queryEntries_dictSet_fresh,
        queryEntries_of_dictLookup_none, dictLookup_addIfSome_ne,
        dictLookup_addIfTruthy_ne, dictLookup_addIntListArg_ne,
        dictLookup_addStrListArg_ne, dictLookup, encodeVal]
  · rcases htag with h' | h' <;>
      refine ⟨?_, fun b hb => ?_, fun hrt => ?_, ?_, ?_⟩ <;>
      simp [getEventsParams, h', h, addTagFilters_none_eq, addTagFilters_empty_eq,
        queryEntries_addTagFiltersNoTag_tag_id,
        queryEntries_addTagFiltersNoTag_related,
        queryEntries_addTagFiltersNoTag_related_none,
        queryEntries_addTagFiltersNoTag_tid_ne,
        queryEntries_of_dictLookup_none, dictLookup_addIfSome_ne,
        dictLookup_addIfTruthy_ne, dictLookup_addIntListArg_ne,
        dictLookup_addStrListArg_ne, dictLookup, encodeVal, *]
  · rcases htag with h' | h' <;>
      refine ⟨?_, ?_, ?_, ?_⟩ <;>
      simp [getEventsParams, h', h₀, h, hs, addTagFilters_none_eq,
        addTagFilters_empty_eq, addTagFiltersNoTag_slug_eq,
        queryEntries_dictSet_ne, queryEntries_dictSet_fresh,
        queryEntries_of_dictLookup_none, dictLookup_addIfSome_ne,
        dictLookup_addIfTruthy_ne, dictLookup_addIntListArg_ne,
        dictLookup_addStrListArg_ne, dictLookup, encodeVal]

/-- Witness for C4: tag="x" together with tag_id=5 sends only tag;
tag absent with tag_id=5 sends tag_id. -/
theorem get_events_tag_filter_priority_witness :
    (queryEntries
        (getEventsParams { tag := some "x", tag_id := some 5 }) "tag"
      = [QVal.qStr "x"] ∧
     queryEntries
        (getEventsParams { tag := some "x", tag_id := some 5 }) "tag_id"
      = []) ∧
    queryEntries (getEventsParams { tag_id := some 5 }) "tag_id"
      = [QVal.qInt 5] :=
  ⟨⟨((get_events_tag_filter_priority
        { tag := some "x", tag_id := some 5 }).1 "x" rfl (by decide)).1,
    ((get_events_tag_filter_priority
        { tag := some "x", tag_id := some 5 }).1 "x" rfl (by decide)).2.1⟩,
   ((get_events_tag_filter_priority { tag_id := some 5 }).2.1
      (Or.inl rfl) 5 rfl).1⟩
